import Mathlib

/-!
Shallow embedding of the session/message state-synchronization layer of the
AI-Assistant-Computer front end (`frontend/src/App.tsx` and
`frontend/src/components/LoginPage.tsx`), together with theorems settling the
frozen claims about it.

React semantics modelled explicitly: an event-handler invocation sees a
snapshot of the render's state variables (reads of `activeSessionId`,
`messages`, `input`, `isLoading` inside the handler and inside any
`useCallback` closure created by that render all see the pre-handler values),
while functional `setX(prev => ...)` updates are applied to the accumulated
queued state.  Timestamps (`Date.now()`, `new Date()`) are passed in as a
`Nat` parameter; network collaborators are passed in as oracle values.
-/

namespace Jarvis

/-- Role of a chat message, the closed set `'user' | 'assistant' | 'system'`. -/
inductive Role where
  | user
  | assistant
  | system
deriving DecidableEq, Repr

/-- Type of an agent step, the closed set
`'thinking' | 'planning' | 'tool_call' | 'observation' | 'response' | 'error'`. -/
inductive StepType where
  | thinking
  | planning
  | tool_call
  | observation
  | response
  | error
deriving DecidableEq, Repr

/-- Embeds the `AgentStep` interface of App.tsx.  `tool_args` is
`Record<string, unknown>` in the source; its values are modelled as strings,
which is enough because no claim inspects argument values. -/
structure AgentStep where
  id : String
  type : StepType
  content : String
  tool_name : Option String := none
  tool_args : Option (List (String × String)) := none
  tool_result : Option String := none
  duration_ms : Option Nat := none
  tokens_used : Option Nat := none
deriving DecidableEq, Repr

/-- Embeds the `Message` interface of App.tsx.  `timestamp: Date` is a `Nat`
(milliseconds); `steps?` is an `Option`. -/
structure Message where
  id : String
  role : Role
  content : String
  timestamp : Nat
  steps : Option (List AgentStep) := none
deriving DecidableEq, Repr

/-- Embeds the `ChatSession` interface of App.tsx.  The optional
`pinned?: boolean` field is an `Option Bool`. -/
structure ChatSession where
  id : String
  title : String
  messages : List Message
  createdAt : Nat
  updatedAt : Nat
  pinned : Option Bool := none
deriving DecidableEq, Repr

/-- Embeds the `Settings` interface of App.tsx (string-typed members kept as
strings; the two closed unions kept as strings as well since no claim branches
on them). -/
structure Settings where
  provider : String
  model : String
  voice : String
  voiceEnabled : Bool
  voiceRate : String
  voicePitch : String
  appLanguage : String
  mode : String
deriving DecidableEq, Repr

/-- JavaScript `String.prototype.trim`: removes leading and trailing
whitespace.  Implemented by structural recursion on the character list so that
concrete instances evaluate inside the kernel. -/
def jsTrim (s : String) : String :=
  ⟨((s.data.dropWhile Char.isWhitespace).reverse.dropWhile Char.isWhitespace).reverse⟩

/-- The initial settings value of the `useState` call in App.tsx. -/
def defaultSettings : Settings :=
  { provider := "groq"
    model := "llama-3.3-70b-versatile"
    voice := "en-GB-RyanNeural"
    voiceEnabled := true
    voiceRate := "+5%"
    voicePitch := "+0Hz"
    appLanguage := "en"
    mode := "standard" }

/-- The state variables of the `App` component that the session layer reads and
writes: the session list, the active-session pointer, the visible message list,
the input text, the loading flag and the live step buffer (`currentSteps`). -/
structure AppState where
  sessions : List ChatSession
  activeSessionId : Option String
  messages : List Message
  input : String
  isLoading : Bool
  currentSteps : List AgentStep
  settings : Settings
deriving DecidableEq, Repr

/-- Embeds `selectSession` of App.tsx: when a session with the id exists it
becomes active, its messages become the view, the step buffer and input are
cleared and the loading flag is reset; when the id is absent nothing happens. -/
def selectSession (st : AppState) (sessionId : String) : AppState :=
  match st.sessions.find? (fun s => s.id = sessionId) with
  | some session =>
      { st with
        activeSessionId := some sessionId
        messages := session.messages
        currentSteps := []
        input := ""
        isLoading := false }
  | none => st

/-- Embeds `deleteSession` of App.tsx: the session list is filtered, and when
the deleted id was the active one the active pointer, the view and the step
buffer are cleared. -/
def deleteSession (st : AppState) (sessionId : String) : AppState :=
  let st' := { st with sessions := st.sessions.filter (fun s => s.id ≠ sessionId) }
  if st.activeSessionId = some sessionId then
    { st' with activeSessionId := none, messages := [], currentSteps := [] }
  else
    st'

/-- Embeds `pinSession` of App.tsx.  The source maps over the session list with
`if (s.id === sessionId) { }` — the body of the branch is empty — and then
returns `s` unconditionally, so the matching session is returned unchanged. -/
def pinSession (st : AppState) (sessionId : String) : AppState :=
  { st with
    sessions := st.sessions.map (fun s => if s.id = sessionId then s else s) }

/-- Embeds `renameSession` of App.tsx: only the title of the matching session
is overwritten. -/
def renameSession (st : AppState) (sessionId : String) (newTitle : String) : AppState :=
  { st with
    sessions := st.sessions.map (fun s =>
      if s.id = sessionId then { s with title := newTitle } else s) }

/-- Outcome of the title-generation collaborator call (`POST /api/chat/title`):
either a response with `ok` status carrying `data.title` (an empty string also
models an absent field, both are falsy in the source's `data.title || ...`),
or a non-ok response, or a thrown network error. -/
inductive TitleResult where
  | ok (title : String)
  | httpError
  | netError
deriving DecidableEq, Repr

/-- Embeds `generateTitle` of App.tsx: on an ok response the title is
`data.title || messageContent.slice(0, 30)`; a non-ok response falls through
and a thrown error is caught, both returning `messageContent.slice(0, 30)`. -/
def generateTitle (oracle : TitleResult) (messageContent : String) : String :=
  match oracle with
  | .ok title => if title = "" then messageContent.take 30 else title
  | .httpError => messageContent.take 30
  | .netError => messageContent.take 30

/-- Embeds `updateSession` of App.tsx.  `capturedActiveId` is the
`activeSessionId` the `useCallback` closure captured when it was created — the
value of the render that produced the closure, not the value queued by any
`setActiveSessionId` call made later in the same event handler.  When that
captured value is `null` the function returns without touching the session
list. -/
def updateSession (oracle : TitleResult) (capturedActiveId : Option String)
    (now : Nat) (msgs : List Message) (isNewMessage : Bool)
    (sessions : List ChatSession) : List ChatSession :=
  match capturedActiveId with
  | none => sessions
  | some activeId =>
      let defaultTitle : String :=
        match msgs.head? with
        | some m => if m.content.take 30 = "" then "New Chat" else m.content.take 30
        | none => "New Chat"
      let newTitle : String :=
        if isNewMessage ∧ msgs.length = 1 then
          generateTitle oracle ((msgs.head?.map Message.content).getD "")
        else defaultTitle
      sessions.map (fun s =>
        if s.id = activeId then
          { s with
            messages := msgs
            title := if msgs.length = 1 then newTitle else s.title
            updatedAt := now }
        else s)

/-- Ready state of the browser WebSocket object. -/
inductive WsReadyState where
  | connecting
  | wsOpen
  | closing
  | wsClosed
deriving DecidableEq, Repr

/-- Body of the `{type: "message", ...}` frame sent over the channel. -/
structure WsOutMessage where
  content : String
  settings : Settings
deriving DecidableEq, Repr

/-- Outcome of the HTTP fallback call (`POST /api/chat/message`): either a JSON
body with optional `response`, `message` and `steps` fields, or a thrown
network error. -/
inductive HttpResult where
  | ok (response : Option String) (message : Option String)
      (steps : Option (List AgentStep))
  | netError
deriving DecidableEq, Repr

/-- JavaScript `a || b` on an optional string: an absent or empty string is
falsy and yields `b`. -/
def jsOr (a : Option String) (b : String) : String :=
  match a with
  | some s => if s = "" then b else s
  | none => b

/-- How a user message left the client: over the open streaming channel or via
the HTTP fallback call. -/
inductive SendRoute where
  | viaWebSocket (payload : WsOutMessage)
  | viaHttp (message : String)
deriving DecidableEq, Repr

/-- Environment of one `sendMessage` invocation: the WebSocket ref (`none`
models `wsRef.current === null`) and its ready state, the collaborator
oracles, and the clock value used for every `Date.now()` in the handler. -/
structure SendContext where
  wsState : Option WsReadyState
  titleOracle : TitleResult
  httpOracle : HttpResult
  now : Nat
deriving DecidableEq, Repr

/-- Embeds `sendMessage` of App.tsx, one full event-handler invocation.
`st0` is the render snapshot the handler's closures read.  Key points kept
from the source:
* the guard `if (!input.trim() || isLoading) return;`;
* when the snapshot has no active session a fresh `ChatSession` is prepended
  and `setActiveSessionId` is queued (the local `currentSessionId` variable is
  never read again in the source);
* `updateSession` is the closure created by the snapshot render, so the
  active-session id it sees is `st0.activeSessionId` even when a new session
  was just created;
* the outbound route is the channel only when `wsRef.current?.readyState ===
  WebSocket.OPEN`, and the HTTP fallback otherwise;
* on an HTTP error a `Connection error...` assistant message is appended via a
  functional update.
Returns the post-handler state and the route the message took. -/
def sendMessage (ctx : SendContext) (st0 : AppState) : AppState × Option SendRoute :=
  if jsTrim st0.input = "" ∨ st0.isLoading then (st0, none)
  else
    let st1 : AppState :=
      match st0.activeSessionId with
      | none =>
          let newSession : ChatSession :=
            { id := toString ctx.now
              title := "New Chat"
              messages := []
              createdAt := ctx.now
              updatedAt := ctx.now
              pinned := some false }
          { st0 with
            sessions := newSession :: st0.sessions
            activeSessionId := some newSession.id }
      | some _ => st0
    let userMsg : Message :=
      { id := toString ctx.now
        role := .user
        content := jsTrim st0.input
        timestamp := ctx.now }
    let newMessages := st0.messages ++ [userMsg]
    let st2 : AppState :=
      { st1 with
        messages := newMessages
        sessions :=
          updateSession ctx.titleOracle st0.activeSessionId ctx.now
            newMessages (st0.messages.length = 0) st1.sessions
        input := ""
        isLoading := true
        currentSteps := [] }
    if ctx.wsState = some .wsOpen then
      (st2, some (.viaWebSocket { content := jsTrim st0.input, settings := st0.settings }))
    else
      match ctx.httpOracle with
      | .ok response message steps =>
          let assistantMsg : Message :=
            { id := toString (ctx.now + 1)
              role := .assistant
              content := jsOr response (jsOr message "No response")
              timestamp := ctx.now
              steps := steps }
          let updatedMessages := newMessages ++ [assistantMsg]
          let st3 : AppState :=
            { st2 with
              messages := updatedMessages
              sessions :=
                updateSession ctx.titleOracle st0.activeSessionId ctx.now
                  updatedMessages false st2.sessions
              isLoading := false }
          (st3, some (.viaHttp (jsTrim st0.input)))
      | .netError =>
          let errorMsg : Message :=
            { id := toString (ctx.now + 1)
              role := .assistant
              content := "Connection error. Please check if the backend is running."
              timestamp := ctx.now }
          ({ st2 with
             messages := st2.messages ++ [errorMsg]
             isLoading := false },
           some (.viaHttp (jsTrim st0.input)))

/-- Payload of an inbound `{type: "response", ...}` channel event: the final
assistant content and the (optional) full step sequence of the turn. -/
structure ResponseEvent where
  content : String
  steps : Option (List AgentStep)
deriving DecidableEq, Repr

/-- The assistant `Message` the response handler in `ws.onmessage` builds from
a terminal response event: its `steps` field is the event's `data.steps`
payload, not the step buffer. -/
def responseMessage (now : Nat) (ev : ResponseEvent) : Message :=
  { id := toString now
    role := .assistant
    content := ev.content
    timestamp := now
    steps := ev.steps }

/-- Embeds the `data.type === 'step'` branch of `ws.onmessage`: the step is
appended to the `currentSteps` buffer and nothing else changes. -/
def handleStepEvent (st : AppState) (step : AgentStep) : AppState :=
  { st with currentSteps := st.currentSteps ++ [step] }

/-- Embeds the `data.type === 'response'` branch of `ws.onmessage`: the loading
flag and the step buffer are cleared, the assistant message built from the
event is appended to the visible list, and it is persisted into the session
whose id equals `activeSessionIdRef.current` — the ref mirrors the *current*
active session at event time, not the session that started the turn. -/
def handleResponseEvent (now : Nat) (st : AppState) (ev : ResponseEvent) : AppState :=
  let assistantMsg := responseMessage now ev
  { st with
    isLoading := false
    currentSteps := []
    messages := st.messages ++ [assistantMsg]
    sessions := st.sessions.map (fun s =>
      if some s.id = st.activeSessionId then
        { s with messages := s.messages ++ [assistantMsg], updatedAt := now }
      else s) }

/-- The fixed reconnection delay of `setTimeout(connectWebSocket, 3000)` in
`ws.onclose`, in milliseconds. -/
def reconnectDelayMs : Nat := 3000

/-- Lifecycle events the `connectWebSocket` handlers in App.tsx react to. -/
inductive ConnEvent where
  | opened
  | closed
  | errored
deriving DecidableEq, Repr

/-- Connection-manager state: the `isConnected` flag and the delays of the
reconnection timers scheduled so far, in order.  Each fired timer calls
`connectWebSocket` once, so the list also counts the reconnect attempts the
manager issues. -/
structure ConnMgr where
  isConnected : Bool
  scheduledReconnects : List Nat
deriving DecidableEq, Repr

/-- Embeds the `ws.onopen`, `ws.onclose` and `ws.onerror` handlers of
`connectWebSocket` in App.tsx: `onopen` sets the connected flag; `onclose`
clears it and schedules one reconnect after the fixed 3-second delay;
`onerror` only clears the flag and schedules nothing. -/
def handleConnEvent (m : ConnMgr) : ConnEvent → ConnMgr
  | .opened => { m with isConnected := true }
  | .closed =>
      { isConnected := false
        scheduledReconnects := m.scheduledReconnects ++ [reconnectDelayMs] }
  | .errored => { m with isConnected := false }

/-- Folds a sequence of lifecycle events through the connection handlers. -/
def runConnEvents (m : ConnMgr) (evs : List ConnEvent) : ConnMgr :=
  evs.foldl handleConnEvent m

/-- Embeds the session-persistence `useEffect` of App.tsx: when the in-memory
session list is non-empty it is written over the stored value
(`localStorage.setItem('jarvis-sessions', ...)`); when it is empty the stored
value is left untouched. -/
def saveSessionsEffect (sessions : List ChatSession)
    (store : Option (List ChatSession)) : Option (List ChatSession) :=
  if sessions.length > 0 then some sessions else store

/-- One record of the local credential store (`jarvis-users`). -/
structure StoredUser where
  password : String
  createdAt : String
deriving DecidableEq, Repr

/-- The credential store: a mapping from username to record, modelled as an
association list. -/
abbrev UserStore := List (String × StoredUser)

/-- Lookup of `users[username]` in the credential object. -/
def lookupUser (users : UserStore) (name : String) : Option StoredUser :=
  (users.find? (fun p => p.1 = name)).map Prod.snd

/-- Result of a `handleSubmit` run in LoginPage.tsx: either `setError` with a
message, or a successful login of the username. -/
inductive LoginOutcome where
  | failure (error : String)
  | success (username : String)
deriving DecidableEq, Repr

/-- The single generic error string the sign-in branch uses for both a missing
username and a wrong password. -/
def invalidCredentialsError : String := "Invalid username or password"

/-- Embeds the sign-in branch of `handleSubmit` in LoginPage.tsx: after the
fill-in-all-fields guard, `!users[username] || users[username].password !==
password` rejects with the one generic message; otherwise the login
succeeds. -/
def signIn (users : UserStore) (username password : String) : LoginOutcome :=
  if jsTrim username = "" ∨ jsTrim password = "" then
    .failure "Please fill in all fields"
  else
    match lookupUser users username with
    | none => .failure invalidCredentialsError
    | some u =>
        if u.password ≠ password then .failure invalidCredentialsError
        else .success username

/-! ### Concrete example values used by counterexamples and witnesses -/

/-- A fresh application state with no sessions, no active session, and the
text `Hello` typed in the input box. -/
def exFreshState : AppState :=
  { sessions := []
    activeSessionId := none
    messages := []
    input := "Hello"
    isLoading := false
    currentSteps := []
    settings := defaultSettings }

/-- A send context whose WebSocket is open. -/
def exCtxOpen : SendContext :=
  { wsState := some .wsOpen
    titleOracle := .netError
    httpOracle := .netError
    now := 1000 }

/-- A single thinking step, buffered during an in-flight turn. -/
def exStep : AgentStep :=
  { id := "s1", type := .thinking, content := "pondering" }

/-- Session `1`, empty. -/
def exSessA : ChatSession :=
  { id := "1", title := "A", messages := [], createdAt := 0, updatedAt := 0,
    pinned := some false }

/-- Session `2`, empty. -/
def exSessB : ChatSession :=
  { id := "2", title := "B", messages := [], createdAt := 0, updatedAt := 0,
    pinned := some false }

/-- Mid-turn state: session `1` is active, a request is in flight and `exStep`
sits in the step buffer. -/
def exMidTurnState : AppState :=
  { sessions := [exSessA, exSessB]
    activeSessionId := some "1"
    messages := []
    input := ""
    isLoading := true
    currentSteps := [exStep]
    settings := defaultSettings }

/-- The terminal response event of the turn started in session `1`; per the
inbound contract it carries the turn's full step sequence. -/
def exResponseEvent : ResponseEvent :=
  { content := "done", steps := some [exStep] }

/-- Two-session state with session `1` active and a visible message list. -/
def exTwoSessionState : AppState :=
  { sessions := [exSessA, exSessB]
    activeSessionId := some "1"
    messages := [{ id := "m1", role := .user, content := "hi", timestamp := 0 }]
    input := ""
    isLoading := false
    currentSteps := []
    settings := defaultSettings }

/-- A state whose input box is empty while a session exists. -/
def exEmptyInputState : AppState :=
  { exTwoSessionState with input := "   " }

/-- A one-user credential store. -/
def exUsers : UserStore :=
  [("alice", { password := "hunter2", createdAt := "2024-01-01" })]

/-! ### Theorems -/

/-- C2 (code-bug evidence): `pinSession` never changes anything — the branch
for the matching session id has an empty body in the source, so the session
list (and with it every `pinned` flag) is returned unchanged, contradicting
the specified toggle behaviour. -/
theorem pinSession_is_noop (st : AppState) (sessionId : String) :
    pinSession st sessionId = st := by
  simp [pinSession]

/-- C10: a `sendMessage` call made while the input text trims to empty or
while a request is already in flight returns immediately, leaving the whole
application state (session list, active pointer, message list, step buffer)
unchanged and sending nothing. -/
theorem sendMessage_guard_noop (ctx : SendContext) (st : AppState)
    (h : jsTrim st.input = "" ∨ st.isLoading = true) :
    sendMessage ctx st = (st, none) := by
  unfold sendMessage
  rw [if_pos h]

/-- Witness for `sendMessage_guard_noop` at a concrete whitespace-only input. -/
theorem sendMessage_guard_noop_witness :
    (jsTrim exEmptyInputState.input = "" ∨ exEmptyInputState.isLoading = true) ∧
    sendMessage exCtxOpen exEmptyInputState = (exEmptyInputState, none) :=
  ⟨Or.inl (by decide), sendMessage_guard_noop exCtxOpen exEmptyInputState
    (Or.inl (by decide))⟩

/-- C4: `deleteSession` removes the session with the given id from the list;
when the deleted id was the active one the active pointer and the visible
message list are cleared (no other session is promoted); otherwise the active
pointer and the visible messages are untouched. -/
theorem deleteSession_spec (st : AppState) (sessionId : String) :
    (deleteSession st sessionId).sessions
        = st.sessions.filter (fun s => s.id ≠ sessionId) ∧
    (deleteSession st sessionId).activeSessionId
        = (if st.activeSessionId = some sessionId then none else st.activeSessionId) ∧
    (deleteSession st sessionId).messages
        = (if st.activeSessionId = some sessionId then [] else st.messages) := by
  unfold deleteSession
  by_cases h : st.activeSessionId = some sessionId <;> simp [h]

/-- C7: the persistence effect never writes an empty session list over the
stored data — an empty in-memory list leaves the store exactly as it was,
while a non-empty list is the only thing ever saved. -/
theorem saveSessionsEffect_never_wipes (store : Option (List ChatSession))
    (s : ChatSession) (rest : List ChatSession) :
    saveSessionsEffect [] store = store ∧
    saveSessionsEffect (s :: rest) store = some (s :: rest) := by
  constructor
  · rfl
  · simp [saveSessionsEffect]

/-- C5: when the title-generation collaborator call fails — a thrown network
error or a non-ok response — the title the first message of a session
produces through `updateSession` is exactly the first 30 characters of that
message's content. -/
theorem updateSession_title_fallback (m : Message) (sess : ChatSession) (now : Nat) :
    (updateSession TitleResult.netError (some sess.id) now [m] true
        [sess]).map ChatSession.title = [m.content.take 30] ∧
    (updateSession TitleResult.httpError (some sess.id) now [m] true
        [sess]).map ChatSession.title = [m.content.take 30] := by
  constructor <;> simp [updateSession, generateTitle]

/-- C6: a user message that passes the guard is always routed somewhere —
over the streaming channel exactly when the WebSocket ready state is `OPEN` at
send time, and through the one-shot HTTP fallback call in every other case
(no socket, connecting, closing or closed); it is never dropped or queued. -/
theorem sendMessage_route_spec (ctx : SendContext) (st : AppState)
    (hin : jsTrim st.input ≠ "") (hload : st.isLoading = false) :
    (sendMessage ctx st).2 =
      some (if ctx.wsState = some WsReadyState.wsOpen then
              SendRoute.viaWebSocket
                { content := jsTrim st.input, settings := st.settings }
            else
              SendRoute.viaHttp (jsTrim st.input)) := by
  unfold sendMessage
  rw [if_neg (by simp [hin, hload])]
  by_cases hws : ctx.wsState = some WsReadyState.wsOpen
  · simp [hws]
  · cases ctx.httpOracle <;> simp [hws]

/-- Witness for `sendMessage_route_spec`: in the fresh example state with the
channel open, the `Hello` message goes out over the WebSocket. -/
theorem sendMessage_route_spec_witness :
    jsTrim exFreshState.input ≠ "" ∧ exFreshState.isLoading = false ∧
    (sendMessage exCtxOpen exFreshState).2 =
      some (if exCtxOpen.wsState = some WsReadyState.wsOpen then
              SendRoute.viaWebSocket
                { content := jsTrim exFreshState.input,
                  settings := exFreshState.settings }
            else
              SendRoute.viaHttp (jsTrim exFreshState.input)) :=
  ⟨by decide, rfl, sendMessage_route_spec exCtxOpen exFreshState (by decide) rfl⟩

/-- C9: the sign-in branch of `handleSubmit` rejects a wrong password for an
existing username and a non-existent username with the identical generic error
message, so the outcome reveals nothing about which field was wrong. -/
theorem signIn_uniform_error (users : UserStore) (name1 pw1 name2 pw2 : String)
    (h1 : ¬ (jsTrim name1 = "" ∨ jsTrim pw1 = ""))
    (h2 : ¬ (jsTrim name2 = "" ∨ jsTrim pw2 = ""))
    (u : StoredUser) (hu : lookupUser users name1 = some u)
    (hpw : u.password ≠ pw1)
    (habsent : lookupUser users name2 = none) :
    signIn users name1 pw1 = .failure invalidCredentialsError ∧
    signIn users name2 pw2 = .failure invalidCredentialsError := by
  unfold signIn
  rw [if_neg h1, if_neg h2, hu, habsent]
  simp [hpw]

/-- Witness for `signIn_uniform_error`: `alice` with a wrong password and the
absent `bob` both fail with the one generic message. -/
theorem signIn_uniform_error_witness :
    ¬ (jsTrim "alice" = "" ∨ jsTrim "wrong" = "") ∧
    ¬ (jsTrim "bob" = "" ∨ jsTrim "pw" = "") ∧
    lookupUser exUsers "alice"
      = some { password := "hunter2", createdAt := "2024-01-01" } ∧
    ({ password := "hunter2", createdAt := "2024-01-01" : StoredUser }.password
      ≠ "wrong") ∧
    lookupUser exUsers "bob" = none ∧
    (signIn exUsers "alice" "wrong" = .failure invalidCredentialsError ∧
     signIn exUsers "bob" "pw" = .failure invalidCredentialsError) :=
  ⟨by decide, by decide, by decide, by decide, by decide,
   signIn_uniform_error exUsers "alice" "wrong" "bob" "pw"
     (by decide) (by decide)
     { password := "hunter2", createdAt := "2024-01-01" }
     (by decide) (by decide) (by decide)⟩

/-- C8 counterexample: an `Errored` transition schedules no reconnection
attempt at all — on a freshly connected manager the `onerror` handler leaves
the schedule empty, refuting "every transition to Closed or Errored schedules
exactly one reconnection attempt". -/
theorem errored_schedules_no_reconnect :
    ¬ ((handleConnEvent { isConnected := true, scheduledReconnects := [] }
          ConnEvent.errored).scheduledReconnects.length = 1) := by
  decide

/-- C8 (amended): every `Closed` transition schedules exactly one reconnection
attempt after the fixed 3-second delay — N consecutive closures yield exactly
N scheduled attempts, all at the same fixed delay, with no backoff growth and
no maximum count — while an `Errored` transition only clears the connected
flag and schedules nothing. -/
theorem closed_reconnect_schedule (m : ConnMgr) (n : Nat) :
    (runConnEvents m (List.replicate n ConnEvent.closed)).scheduledReconnects
        = m.scheduledReconnects ++ List.replicate n reconnectDelayMs ∧
    (handleConnEvent m ConnEvent.errored).scheduledReconnects
        = m.scheduledReconnects ∧
    (handleConnEvent m ConnEvent.errored).isConnected = false := by
  refine ⟨?_, rfl, rfl⟩
  induction n generalizing m with
  | zero => simp [runConnEvents]
  | succ k ih =>
      rw [List.replicate_succ]
      show (runConnEvents (handleConnEvent m ConnEvent.closed)
              (List.replicate k ConnEvent.closed)).scheduledReconnects = _
      rw [ih]
      simp [handleConnEvent, List.replicate_succ]

/-- C3 counterexample: with session `1` active and `exStep` buffered for the
in-flight turn, switching to session `2` and then receiving the abandoned
turn's terminal response event (whose payload carries that turn's steps)
leaves a message in session `2` carrying the abandoned turn's step — the
steps do get attached to a message, and in a different session at that. -/
theorem abandoned_turn_steps_attached :
    ∃ s ∈ (handleResponseEvent 5 (selectSession exMidTurnState "2")
            exResponseEvent).sessions,
      s.id = "2" ∧ ∃ m ∈ s.messages, m.steps = some [exStep] := by
  decide

/-- C3 (amended): switching the active session clears the step buffer and
changes no session's stored messages, so the buffered steps themselves are
discarded and never flushed into any message; but when the abandoned turn's
terminal response event arrives after the switch, the handler appends an
assistant message carrying the event's own step payload to the **newly**
active session. -/
theorem selectSession_clears_buffer_response_targets_new_active
    (st : AppState) (targetId : String) (sess : ChatSession) (now : Nat)
    (ev : ResponseEvent)
    (hfind : st.sessions.find? (fun s => s.id = targetId) = some sess) :
    (selectSession st targetId).currentSteps = [] ∧
    (selectSession st targetId).sessions = st.sessions ∧
    (handleResponseEvent now (selectSession st targetId) ev).sessions
      = st.sessions.map (fun s =>
          if s.id = targetId then
            { s with
              messages := s.messages ++ [responseMessage now ev]
              updatedAt := now }
          else s) := by
  unfold selectSession
  rw [hfind]
  refine ⟨rfl, rfl, ?_⟩
  simp [handleResponseEvent, eq_comm]

/-- Witness for `selectSession_clears_buffer_response_targets_new_active` at
the concrete mid-turn state, switching to session `2`. -/
theorem selectSession_clears_buffer_witness :
    exMidTurnState.sessions.find? (fun s => s.id = "2") = some exSessB ∧
    (selectSession exMidTurnState "2").currentSteps = [] ∧
    (selectSession exMidTurnState "2").sessions = exMidTurnState.sessions ∧
    (handleResponseEvent 5 (selectSession exMidTurnState "2")
        exResponseEvent).sessions
      = exMidTurnState.sessions.map (fun s =>
          if s.id = "2" then
            { s with
              messages := s.messages ++ [responseMessage 5 exResponseEvent]
              updatedAt := 5 }
          else s) :=
  ⟨by decide,
   selectSession_clears_buffer_response_targets_new_active
     exMidTurnState "2" exSessB 5 exResponseEvent (by decide)⟩

/-- C1 (code-bug evidence): starting from a fresh state with no active session
and `Hello` in the input box, `sendMessage` creates a new session but its
stored message sequence stays empty — the `updateSession` closure it calls was
created with the render's still-`null` `activeSessionId` and returns without
writing — while the transient visible message list does show the message.  The
first message of the conversation is therefore lost from the session (and from
anything persisted from it). -/
theorem first_message_lost_from_session :
    ((sendMessage exCtxOpen exFreshState).1.sessions.map ChatSession.messages
        = [[]]) ∧
    ((sendMessage exCtxOpen exFreshState).1.messages.map Message.content
        = ["Hello"]) := by
  decide

end Jarvis
